import Mathlib

/-!
Verification of the ingestion–normalization–windowing–orchestration pipeline
of the ai4ci cybersecurity agent, against its natural-language specification.

The repository ships the frontend incident console in TypeScript together
with the documentation of the Python ETL / orchestrator / summarizer
modules.  Pure fragments of that code are embedded below as Lean
definitions; components whose code is absent from the repository snapshot
are modelled from the specification text, as marked on each definition.
-/

namespace AgentSpec

/-! ## ETL canonical event schema (claim C1)

The persisted column order is declared in the etl README, section
"Schema (column order)". -/

/-- The ordered column list of the persisted canonical event table, copied
from the etl README's "Schema (column order)" section. -/
def etlSchemaColumns : List String :=
  ["timestamp", "source", "client_ip", "method", "path", "status",
   "bytes_sent", "referer", "user_agent", "level", "latency_ms", "user",
   "msg", "hostname", "verdict", "src_ip", "dst_ip", "proto", "spt", "dpt",
   "raw_line", "parse_ok", "parse_error"]

/-- The ordered column list exactly as the specification's Event data model
(§3) enumerates it; written from the spec's words for comparison with
`etlSchemaColumns`. -/
def specEventColumns : List String :=
  ["timestamp", "source", "client_ip", "method", "path", "status",
   "bytes_sent", "referer", "user_agent", "level", "latency_ms", "user",
   "message", "hostname", "verdict", "src_ip", "dst_ip", "proto",
   "src_port", "dst_port", "raw_line", "parse_ok", "parse_error"]

/-- Renaming that maps the spec's field names onto the persisted schema's
column names. -/
def renameSpecColumn (c : String) : String :=
  if c = "message" then "msg"
  else if c = "src_port" then "spt"
  else if c = "dst_port" then "dpt"
  else c

/-! ## Canonical Event record (claims C2, C6)

One normalized log record, with the columns of the persisted schema.
All fields are nullable except `source`, `raw_line`, `parse_ok`. -/

structure Event where
  timestamp : Option String
  source : String
  client_ip : Option String
  method : Option String
  path : Option String
  status : Option Nat
  bytes_sent : Option Nat
  referer : Option String
  user_agent : Option String
  level : Option String
  latency_ms : Option ℚ
  user : Option String
  msg : Option String
  hostname : Option String
  verdict : Option String
  src_ip : Option String
  dst_ip : Option String
  proto : Option String
  spt : Option Nat
  dpt : Option Nat
  raw_line : String
  parse_ok : Bool
  parse_error : Option String
deriving DecidableEq, Repr

/-- An Event with every nullable field null. -/
def emptyEvent (src line : String) : Event :=
  { timestamp := none, source := src, client_ip := none, method := none,
    path := none, status := none, bytes_sent := none, referer := none,
    user_agent := none, level := none, latency_ms := none, user := none,
    msg := none, hostname := none, verdict := none, src_ip := none,
    dst_ip := none, proto := none, spt := none, dpt := none,
    raw_line := line, parse_ok := true, parse_error := none }

/-! ## Application log parser (claim C2)

Modelled from the spec: the Python `etl` parser module is not part of the
repository snapshot (only the etl README is).  The spec, §4.2: the
application parser reads key=value tokens with one quoted `msg` field;
missing keys are null, not errors; any grammar mismatch produces
`parse_ok=false` with a descriptive `parse_error` and the verbatim
`raw_line` — it never throws past the parser boundary. -/

inductive ParseErr where
  | unterminatedQuote : ParseErr
  | multipleMsg : ParseErr
  | malformedToken : String → ParseErr
  | badLogFormat : String → ParseErr
  | badSyslog : String → ParseErr
  | badNumber : String → ParseErr
deriving DecidableEq, Repr

/-- Render a grammar-mismatch reason as the descriptive `parse_error`
string recorded on the Event. -/
def ParseErr.render : ParseErr → String
  | .unterminatedQuote => "unterminated quoted msg value"
  | .multipleMsg => "multiple quoted msg fields"
  | .malformedToken t => "token is not key=value: " ++ t
  | .badLogFormat w => "combined log grammar mismatch: " ++ w
  | .badSyslog w => "syslog grammar mismatch: " ++ w
  | .badNumber t => "expected a number, got: " ++ t

/-- Parse a decimal numeral such as `12.5` into a rational. -/
def parseDecimal (s : String) : Option ℚ :=
  match s.splitOn "." with
  | [w] => (w.toNat?).map (fun n => (n : ℚ))
  | [w, f] =>
    match w.toNat?, f.toNat? with
    | some a, some b => some ((a : ℚ) + (b : ℚ) / ((10 : ℚ) ^ f.length))
    | _, _ => none
  | _ => none

/-- Scanner mode: reading a key, reading an unquoted value, or inside a
quoted value. -/
inductive ScanMode where
  | keyMode : ScanMode
  | valMode : ScanMode
  | quoteMode : ScanMode
deriving DecidableEq, Repr

/-- Finish the token whose key and value chars are accumulated in
reverse. -/
def mkPair (curKey curVal : List Char) : String × String :=
  (String.mk curKey.reverse, String.mk curVal.reverse)

/-- Character-level scan of an application log line into key/value pairs
plus the quoted `msg` body.  `acc` holds finished pairs in reverse;
`curKey`/`curVal` hold the token in progress in reverse. -/
def appScan (acc : List (String × String)) (msgv : Option String)
    (curKey curVal : List Char) (mode : ScanMode) :
    List Char → Except ParseErr (List (String × String) × Option String)
  | [] =>
    match mode with
    | .quoteMode => .error .unterminatedQuote
    | .keyMode =>
      if curKey.isEmpty then .ok (acc.reverse, msgv)
      else .error (.malformedToken (String.mk curKey.reverse))
    | .valMode => .ok ((mkPair curKey curVal :: acc).reverse, msgv)
  | c :: cs =>
    match mode with
    | .keyMode =>
      if c = ' ' then
        if curKey.isEmpty then appScan acc msgv [] [] .keyMode cs
        else .error (.malformedToken (String.mk curKey.reverse))
      else if c = '=' then appScan acc msgv curKey [] .valMode cs
      else appScan acc msgv (c :: curKey) [] .keyMode cs
    | .valMode =>
      if c = ' ' then appScan (mkPair curKey curVal :: acc) msgv [] [] .keyMode cs
      else if c = '"' then
        if curVal.isEmpty then appScan acc msgv curKey [] .quoteMode cs
        else appScan acc msgv curKey (c :: curVal) .valMode cs
      else appScan acc msgv curKey (c :: curVal) .valMode cs
    | .quoteMode =>
      if c = '"' then
        if String.mk curKey.reverse = "msg" then
          match msgv with
          | some _ => .error .multipleMsg
          | none => appScan acc (some (String.mk curVal.reverse)) [] [] .keyMode cs
        else appScan (mkPair curKey curVal :: acc) msgv [] [] .keyMode cs
      else appScan acc msgv curKey (c :: curVal) .quoteMode cs

/-- Extract the key/value pairs and the quoted `msg` body from an
application log line. -/
def appFields (line : String) :
    Except ParseErr (List (String × String) × Option String) :=
  appScan [] none [] [] .keyMode line.toList

/-- Modelled from the spec: `parse(raw_line) → Event` for the application
source type.  Extractable keys populate the Event's typed fields, the
quoted body populates `msg`, missing keys stay null, and any grammar
mismatch is recorded in-band via `parse_ok=false` / `parse_error`. -/
def parseApplication (line : String) : Event :=
  match appFields line with
  | .error e =>
    { emptyEvent "application" line with
      parse_ok := false, parse_error := some e.render }
  | .ok (kvs, m) =>
    { emptyEvent "application" line with
      parse_ok := true, parse_error := none,
      timestamp := kvs.lookup "ts",
      level := kvs.lookup "level",
      user := kvs.lookup "user",
      hostname := kvs.lookup "hostname",
      latency_ms := (kvs.lookup "latency_ms").bind parseDecimal,
      msg := m }

/-! ## Web-access log parser (claim C2)

Modelled from the spec: spec §4.2 — the web-access parser reads the fixed
combined-log grammar and extracts client IP, method, path, status, bytes,
referer, user agent and the bracketed timestamp. -/

/-- Split at the first occurrence of `stop`, consuming it; `none` when
`stop` does not occur. -/
def splitAtChar (stop : Char) : List Char → Option (List Char × List Char)
  | [] => none
  | c :: cs =>
    if c = stop then some ([], cs)
    else (splitAtChar stop cs).map (fun r => (c :: r.1, r.2))

/-- Split on every occurrence of `sep`; `cur` holds the chunk in progress
in reverse. -/
def splitAllAux (sep : Char) (cur : List Char) :
    List Char → List (List Char)
  | [] => [cur.reverse]
  | c :: cs =>
    if c = sep then cur.reverse :: splitAllAux sep [] cs
    else splitAllAux sep (c :: cur) cs

/-- Split a char list on every occurrence of `sep`. -/
def splitAll (sep : Char) (cs : List Char) : List (List Char) :=
  splitAllAux sep [] cs

/-- Value of a decimal digit char, `none` for a non-digit. -/
def digitVal (c : Char) : Option Nat :=
  if 48 ≤ c.toNat ∧ c.toNat ≤ 57 then some (c.toNat - 48) else none

def natOfDigitsAux (acc : Nat) : List Char → Option Nat
  | [] => some acc
  | c :: cs =>
    match digitVal c with
    | none => none
    | some d => natOfDigitsAux (acc * 10 + d) cs

/-- Read a nonempty all-digit char list as a natural number. -/
def natOfDigits : List Char → Option Nat
  | [] => none
  | c :: cs => natOfDigitsAux 0 (c :: cs)

/-- Lift an optional intermediate parse result, failing with `e`. -/
def orFail (o : Option α) (e : ParseErr) : Except ParseErr α :=
  match o with
  | some a => .ok a
  | none => .error e

/-- Consume one expected char, failing with a `badLogFormat` reason. -/
def expectChar (c : Char) (what : String) :
    List Char → Except ParseErr (List Char)
  | [] => .error (.badLogFormat what)
  | x :: xs => if x = c then .ok xs else .error (.badLogFormat what)

/-- The typed fields a well-formed combined-log line yields. -/
structure WebFieldsRec where
  client_ip : String
  user : Option String
  ts : String
  method : String
  path : String
  proto : String
  status : Nat
  bytes_sent : Option Nat
  referer : String
  user_agent : String
deriving DecidableEq, Repr

/-- Parse the combined-log grammar
`ip ident user [timestamp] "method path proto" status bytes "referer"
"user agent"`. -/
def webFields (cs : List Char) : Except ParseErr WebFieldsRec := do
  let (ipT, r1) ← orFail (splitAtChar ' ' cs) (.badLogFormat "missing client ip")
  let _ ← (if ipT.isEmpty then
      Except.error (ParseErr.badLogFormat "empty client ip")
    else Except.ok ())
  let (_identT, r2) ← orFail (splitAtChar ' ' r1)
    (.badLogFormat "missing identity field")
  let (userT, r3) ← orFail (splitAtChar ' ' r2)
    (.badLogFormat "missing user field")
  let r4 ← expectChar '[' "missing timestamp bracket" r3
  let (tsT, r5) ← orFail (splitAtChar ']' r4)
    (.badLogFormat "unterminated timestamp bracket")
  let r6 ← expectChar ' ' "missing space after timestamp" r5
  let r7 ← expectChar '"' "missing request quote" r6
  let (reqT, r8) ← orFail (splitAtChar '"' r7)
    (.badLogFormat "unterminated request quote")
  let (m, p, pr) ← (match splitAll ' ' reqT with
    | [mT, pT, prT] => Except.ok (String.mk mT, String.mk pT, String.mk prT)
    | _ => Except.error
        (ParseErr.badLogFormat "request line is not method path protocol"))
  let r9 ← expectChar ' ' "missing space after request" r8
  let (stT, r10) ← orFail (splitAtChar ' ' r9)
    (.badLogFormat "missing status field")
  let st ← orFail (natOfDigits stT) (.badNumber (String.mk stT))
  let (byT, r11) ← orFail (splitAtChar ' ' r10)
    (.badLogFormat "missing bytes field")
  let bytes ← (if String.mk byT = "-" then Except.ok none
    else match natOfDigits byT with
      | some n => Except.ok (some n)
      | none => Except.error (ParseErr.badNumber (String.mk byT)))
  let r12 ← expectChar '"' "missing referer quote" r11
  let (refT, r13) ← orFail (splitAtChar '"' r12)
    (.badLogFormat "unterminated referer quote")
  let r14 ← expectChar ' ' "missing space after referer" r13
  let r15 ← expectChar '"' "missing user agent quote" r14
  let (uaT, _r16) ← orFail (splitAtChar '"' r15)
    (.badLogFormat "unterminated user agent quote")
  Except.ok
    { client_ip := String.mk ipT,
      user := if String.mk userT = "-" then none else some (String.mk userT),
      ts := String.mk tsT, method := m, path := p, proto := pr,
      status := st, bytes_sent := bytes, referer := String.mk refT,
      user_agent := String.mk uaT }

/-- Modelled from the spec: `parse(raw_line) → Event` for the web-access
source type (fixed combined-log grammar); any grammar mismatch is
recorded in-band via `parse_ok=false` / `parse_error`. -/
def parseWebAccess (line : String) : Event :=
  match webFields line.toList with
  | .error e =>
    { emptyEvent "web-access" line with
      parse_ok := false, parse_error := some e.render }
  | .ok f =>
    { emptyEvent "web-access" line with
      timestamp := some f.ts, client_ip := some f.client_ip,
      method := some f.method, path := some f.path,
      status := some f.status, bytes_sent := f.bytes_sent,
      referer := some f.referer, user_agent := some f.user_agent,
      user := f.user }

/-! ## Firewall (UFW syslog) parser (claim C2)

Modelled from the spec: spec §4.2 — the firewall parser reads a
syslog-style line whose timestamp lacks a year (month, day, time, then
hostname and the UFW report with `KEY=value` tokens). -/

/-- The typed fields a well-formed UFW syslog line yields. -/
structure FwRec where
  ts : String
  hostname : String
  verdict : Option String
  src_ip : Option String
  dst_ip : Option String
  proto : Option String
  spt : Option Nat
  dpt : Option Nat
deriving DecidableEq, Repr

def monthNames : List String :=
  ["Jan", "Feb", "Mar", "Apr", "May", "Jun",
   "Jul", "Aug", "Sep", "Oct", "Nov", "Dec"]

/-- Scan the tokens after the hostname: the bracketed UFW verdict and
the `KEY=value` pairs; unknown tokens are syslog free text and are
ignored; a non-numeric `SPT`/`DPT` value is a grammar mismatch. -/
def fwTokens (acc : FwRec) (sawUfw : Bool) :
    List (List Char) → Except ParseErr FwRec
  | [] => .ok acc
  | t :: ts =>
    if sawUfw then
      match t.reverse with
      | ']' :: restRev =>
        fwTokens { acc with verdict := some (String.mk restRev.reverse) }
          false ts
      | _ => fwTokens acc true ts
    else if String.mk t = "[UFW" then fwTokens acc true ts
    else
      match splitAtChar '=' t with
      | none => fwTokens acc false ts
      | some (k, v) =>
        if String.mk k = "SRC" then
          fwTokens { acc with src_ip := some (String.mk v) } false ts
        else if String.mk k = "DST" then
          fwTokens { acc with dst_ip := some (String.mk v) } false ts
        else if String.mk k = "PROTO" then
          fwTokens { acc with proto := some (String.mk v) } false ts
        else if String.mk k = "SPT" then
          match natOfDigits v with
          | none => .error (.badNumber (String.mk v))
          | some n => fwTokens { acc with spt := some n } false ts
        else if String.mk k = "DPT" then
          match natOfDigits v with
          | none => .error (.badNumber (String.mk v))
          | some n => fwTokens { acc with dpt := some n } false ts
        else fwTokens acc false ts

/-- Parse the UFW syslog grammar
`Mon day hh:mm:ss hostname ... [UFW verdict] KEY=value ...`. -/
def fwFields (cs : List Char) : Except ParseErr FwRec := do
  let (monT, r1) ← orFail (splitAtChar ' ' cs)
    (.badSyslog "truncated line: missing month")
  let _ ← (if monthNames.contains (String.mk monT) then Except.ok ()
    else Except.error
      (ParseErr.badSyslog ("unknown month: " ++ String.mk monT)))
  let (dayT, r2) ← orFail (splitAtChar ' ' r1)
    (.badSyslog "truncated line: missing day")
  let _ ← orFail (natOfDigits dayT) (.badNumber (String.mk dayT))
  let (timeT, r3) ← orFail (splitAtChar ' ' r2)
    (.badSyslog "truncated line: missing time")
  let (hT, tr1) ← orFail (splitAtChar ':' timeT) (.badSyslog "malformed time")
  let (mT, sT) ← orFail (splitAtChar ':' tr1) (.badSyslog "malformed time")
  let _ ← orFail (natOfDigits hT) (.badNumber (String.mk hT))
  let _ ← orFail (natOfDigits mT) (.badNumber (String.mk mT))
  let _ ← orFail (natOfDigits sT) (.badNumber (String.mk sT))
  let (hostT, r4) ← orFail (splitAtChar ' ' r3)
    (.badSyslog "truncated line: missing hostname")
  fwTokens
    { ts := String.mk monT ++ " " ++ String.mk dayT ++ " " ++ String.mk timeT,
      hostname := String.mk hostT, verdict := none, src_ip := none,
      dst_ip := none, proto := none, spt := none, dpt := none }
    false (splitAll ' ' r4)

/-- Modelled from the spec: `parse(raw_line) → Event` for the firewall
source type (syslog-style UFW line); any grammar mismatch is recorded
in-band via `parse_ok=false` / `parse_error`. -/
def parseFirewall (line : String) : Event :=
  match fwFields line.toList with
  | .error e =>
    { emptyEvent "firewall" line with
      parse_ok := false, parse_error := some e.render }
  | .ok f =>
    { emptyEvent "firewall" line with
      timestamp := some f.ts, hostname := some f.hostname,
      verdict := f.verdict, src_ip := f.src_ip, dst_ip := f.dst_ip,
      proto := f.proto, spt := f.spt, dpt := f.dpt }

theorem parseErr_render_ne_empty (e : ParseErr) : e.render ≠ "" := by
  cases e with
  | unterminatedQuote => simp [ParseErr.render]
  | multipleMsg => simp [ParseErr.render]
  | malformedToken t =>
    intro h
    have hlen := congrArg String.length h
    simp [ParseErr.render, String.length_append] at hlen
    exact absurd hlen.1 (by decide)
  | badLogFormat w =>
    intro h
    have hlen := congrArg String.length h
    simp [ParseErr.render, String.length_append] at hlen
    exact absurd hlen.1 (by decide)
  | badSyslog w =>
    intro h
    have hlen := congrArg String.length h
    simp [ParseErr.render, String.length_append] at hlen
    exact absurd hlen.1 (by decide)
  | badNumber t =>
    intro h
    have hlen := congrArg String.length h
    simp [ParseErr.render, String.length_append] at hlen
    exact absurd hlen.1 (by decide)

/-- Claim C1 (counterexample): the persisted column set is NOT the
spec's enumeration verbatim — at position 12 the schema stores `msg`
where the spec's Event model says `message` (likewise `spt`/`dpt` at
positions 18 and 19 for `src_port`/`dst_port`). -/
theorem C1_columns_counterexample :
    specEventColumns ≠ etlSchemaColumns ∧
    List.getD specEventColumns 12 "" = "message" ∧
    List.getD etlSchemaColumns 12 "" = "msg" ∧
    List.getD specEventColumns 18 "" = "src_port" ∧
    List.getD etlSchemaColumns 18 "" = "spt" ∧
    List.getD specEventColumns 19 "" = "dst_port" ∧
    List.getD etlSchemaColumns 19 "" = "dpt" := by
  decide

/-- Claim C1 (amended): the persisted canonical event table has exactly
the spec's 23 columns in the spec's order, except that the columns the
spec calls `message`, `src_port`, `dst_port` are persisted under the names
`msg`, `spt`, `dpt`. -/
theorem C1_columns_amended :
    etlSchemaColumns = specEventColumns.map renameSpecColumn ∧
    etlSchemaColumns.length = 23 := by
  decide

/-- Parse totality for the format parser of source type `src`: every
input string yields an Event whose `raw_line` is the verbatim input, and
either `parse_ok=true` with no parse error, or `parse_ok=false` with a
descriptive (nonempty) `parse_error`; failure is data, never an
exception. -/
def ParserTotal (src : String) (parse : String → Event) : Prop :=
  ∀ line : String,
    (parse line).raw_line = line ∧
    (parse line).source = src ∧
    (((parse line).parse_ok = true ∧ (parse line).parse_error = none) ∨
      ((parse line).parse_ok = false ∧
        ∃ m, (parse line).parse_error = some m ∧ m ≠ ""))

/-- Claim C2: every format parser — web-access, application, firewall —
is total: for any input string it returns an Event with either
`parse_ok=true` and the extractable fields populated, or `parse_ok=false`
with a descriptive (nonempty) `parse_error` and `raw_line` preserved
verbatim; it never raises past the parser boundary.  The closing
conjuncts exhibit, for each parser, the populated extractable fields on a
well-formed line and the failure shape on a malformed one. -/
theorem C2_parse_totality :
    ParserTotal "web-access" parseWebAccess ∧
    ParserTotal "application" parseApplication ∧
    ParserTotal "firewall" parseFirewall ∧
    (parseApplication "level=INFO user=alice msg=\"hi there\"").level
      = some "INFO" ∧
    (parseApplication "level=INFO user=alice msg=\"hi there\"").user
      = some "alice" ∧
    (parseApplication "level=INFO user=alice msg=\"hi there\"").msg
      = some "hi there" ∧
    (parseApplication "level=INFO user=alice msg=\"hi there\"").parse_ok
      = true ∧
    (parseApplication "garbage line no equals").parse_ok = false ∧
    (parseApplication "garbage line no equals").parse_error
      = some "token is not key=value: garbage" ∧
    (parseWebAccess "203.0.113.5 - alice [10/Oct/2024:13:55:36 +0000] \"GET /index.html HTTP/1.1\" 200 512 \"-\" \"curl/8.0\"").client_ip
      = some "203.0.113.5" ∧
    (parseWebAccess "203.0.113.5 - alice [10/Oct/2024:13:55:36 +0000] \"GET /index.html HTTP/1.1\" 200 512 \"-\" \"curl/8.0\"").method
      = some "GET" ∧
    (parseWebAccess "203.0.113.5 - alice [10/Oct/2024:13:55:36 +0000] \"GET /index.html HTTP/1.1\" 200 512 \"-\" \"curl/8.0\"").path
      = some "/index.html" ∧
    (parseWebAccess "203.0.113.5 - alice [10/Oct/2024:13:55:36 +0000] \"GET /index.html HTTP/1.1\" 200 512 \"-\" \"curl/8.0\"").status
      = some 200 ∧
    (parseWebAccess "203.0.113.5 - alice [10/Oct/2024:13:55:36 +0000] \"GET /index.html HTTP/1.1\" 200 512 \"-\" \"curl/8.0\"").bytes_sent
      = some 512 ∧
    (parseWebAccess "203.0.113.5 - alice [10/Oct/2024:13:55:36 +0000] \"GET /index.html HTTP/1.1\" 200 512 \"-\" \"curl/8.0\"").user_agent
      = some "curl/8.0" ∧
    (parseWebAccess "203.0.113.5 - alice [10/Oct/2024:13:55:36 +0000] \"GET /index.html HTTP/1.1\" 200 512 \"-\" \"curl/8.0\"").parse_ok
      = true ∧
    (parseWebAccess "not a log line").parse_ok = false ∧
    (parseWebAccess "not a log line").parse_error
      = some "combined log grammar mismatch: missing timestamp bracket" ∧
    (parseFirewall "Dec 31 23:59:59 fw kernel: [UFW BLOCK] IN=eth0 OUT= SRC=198.51.100.9 DST=10.0.0.7 PROTO=TCP SPT=51514 DPT=22").src_ip
      = some "198.51.100.9" ∧
    (parseFirewall "Dec 31 23:59:59 fw kernel: [UFW BLOCK] IN=eth0 OUT= SRC=198.51.100.9 DST=10.0.0.7 PROTO=TCP SPT=51514 DPT=22").dst_ip
      = some "10.0.0.7" ∧
    (parseFirewall "Dec 31 23:59:59 fw kernel: [UFW BLOCK] IN=eth0 OUT= SRC=198.51.100.9 DST=10.0.0.7 PROTO=TCP SPT=51514 DPT=22").proto
      = some "TCP" ∧
    (parseFirewall "Dec 31 23:59:59 fw kernel: [UFW BLOCK] IN=eth0 OUT= SRC=198.51.100.9 DST=10.0.0.7 PROTO=TCP SPT=51514 DPT=22").spt
      = some 51514 ∧
    (parseFirewall "Dec 31 23:59:59 fw kernel: [UFW BLOCK] IN=eth0 OUT= SRC=198.51.100.9 DST=10.0.0.7 PROTO=TCP SPT=51514 DPT=22").dpt
      = some 22 ∧
    (parseFirewall "Dec 31 23:59:59 fw kernel: [UFW BLOCK] IN=eth0 OUT= SRC=198.51.100.9 DST=10.0.0.7 PROTO=TCP SPT=51514 DPT=22").verdict
      = some "BLOCK" ∧
    (parseFirewall "Dec 31 23:59:59 fw kernel: [UFW BLOCK] IN=eth0 OUT= SRC=198.51.100.9 DST=10.0.0.7 PROTO=TCP SPT=51514 DPT=22").timestamp
      = some "Dec 31 23:59:59" ∧
    (parseFirewall "Dec 31 23:59:59 fw kernel: [UFW BLOCK] IN=eth0 OUT= SRC=198.51.100.9 DST=10.0.0.7 PROTO=TCP SPT=51514 DPT=22").parse_ok
      = true ∧
    (parseFirewall "Foo 31 23:59:59 fw x").parse_ok = false ∧
    (parseFirewall "Foo 31 23:59:59 fw x").parse_error
      = some "syslog grammar mismatch: unknown month: Foo" := by
  refine ⟨fun line => ?_, fun line => ?_, fun line => ?_, by decide⟩
  · cases h : webFields line.data with
    | error e =>
      refine ⟨?_, ?_, Or.inr ⟨?_, e.render, ?_, parseErr_render_ne_empty e⟩⟩ <;>
        simp [parseWebAccess, h, emptyEvent]
    | ok f =>
      refine ⟨?_, ?_, Or.inl ⟨?_, ?_⟩⟩ <;> simp [parseWebAccess, h, emptyEvent]
  · cases h : appFields line with
    | error e =>
      refine ⟨?_, ?_, Or.inr ⟨?_, e.render, ?_, parseErr_render_ne_empty e⟩⟩ <;>
        simp [parseApplication, h, emptyEvent]
    | ok p =>
      obtain ⟨kvs, m⟩ := p
      refine ⟨?_, ?_, Or.inl ⟨?_, ?_⟩⟩ <;> simp [parseApplication, h, emptyEvent]
  · cases h : fwFields line.data with
    | error e =>
      refine ⟨?_, ?_, Or.inr ⟨?_, e.render, ?_, parseErr_render_ne_empty e⟩⟩ <;>
        simp [parseFirewall, h, emptyEvent]
    | ok f =>
      refine ⟨?_, ?_, Or.inl ⟨?_, ?_⟩⟩ <;> simp [parseFirewall, h, emptyEvent]

/-! ## Classified windows and the healthy-window filter (claim C3)

Modelled from the spec: `summarize_incidents.py` is not part of the
repository snapshot (only the incident_summarizer README and its runner
script are).  Spec §4.5 and the README: windows predicted `healthy` are
by default excluded from incident creation; the explicit
`--include-healthy` override includes them. -/

/-- A classified window: `{window_id, label, probability}` attached to a
sealed window. -/
structure ClassificationResult where
  window_start : Nat
  window_end : Nat
  label : String
  proba : ℚ
deriving DecidableEq, Repr

/-- One emitted incident-summary record (JSONL row of the summarizer). -/
structure SummaryRecord where
  window_start : Nat
  window_end : Nat
  predicted_label : String
  proba : ℚ
  title : String
  description : String
deriving DecidableEq, Repr

/-- Modelled from the spec: a classified window is included in the output
iff its label is not `healthy` or the include-healthy override is on. -/
def includeWindow (includeHealthy : Bool) (w : ClassificationResult) : Bool :=
  includeHealthy || decide (w.label ≠ "healthy")

/-- Build the emitted record for one included window; `summarize` is the
opaque external (title, description) function. -/
def mkSummaryRecord (summarize : ClassificationResult → String × String)
    (w : ClassificationResult) : SummaryRecord :=
  { window_start := w.window_start, window_end := w.window_end,
    predicted_label := w.label, proba := w.proba,
    title := (summarize w).1, description := (summarize w).2 }

/-- Modelled from the spec: the summarizer emits one record per included
window, in window order. -/
def summarizeRun (includeHealthy : Bool)
    (summarize : ClassificationResult → String × String)
    (ws : List ClassificationResult) : List SummaryRecord :=
  (ws.filter (includeWindow includeHealthy)).map (mkSummaryRecord summarize)

/-! ## Incident Decision Engine (claims C4, C5)

Modelled from the spec: the orchestrator's decision-engine Python module
is not part of the repository snapshot (only the orchestrator README is).
Spec §4.6: create on first qualifying window for a fingerprint with
`status=open`, `first_seen_at=last_seen_at=window.start`, severity derived
from probability; merge updates `last_seen_at`, recomputes severity as the
running maximum of window probabilities scaled to 0–100, appends bounded
evidence, and leaves `status` and `first_seen_at` untouched. -/

/-- Stable merge key derived from `(attack_type, source_ip, dest_ip)`. -/
structure Fingerprint where
  label : String
  source_ip : String
  dest_ip : String
deriving DecidableEq, Repr

structure Incident where
  fingerprint : Fingerprint
  title : String
  description : String
  attack_type : String
  severity : ℚ
  confidence : ℚ
  status : String
  first_seen_at : Nat
  last_seen_at : Nat
  evidence : List String
deriving DecidableEq, Repr

/-- Scale a probability in [0,1] to the 0–100 severity range. -/
def scaleSeverity (p : ℚ) : ℚ := p * 100

/-- Cap on appended evidence entries. -/
def evidenceBound : Nat := 50

/-- Append new evidence, bounded. -/
def appendEvidence (old new : List String) : List String :=
  (old ++ new).take evidenceBound

/-- Modelled from the spec: create a new incident on the first qualifying
window for a fingerprint. -/
def createIncident (fp : Fingerprint) (windowStart : Nat) (p : ℚ)
    (title description : String) : Incident :=
  { fingerprint := fp, title := title, description := description,
    attack_type := fp.label, severity := scaleSeverity p, confidence := p,
    status := "open", first_seen_at := windowStart,
    last_seen_at := windowStart, evidence := [] }

/-- Modelled from the spec: merge a later qualifying window with the same
fingerprint into an existing open incident. -/
def mergeWindow (inc : Incident) (windowStart : Nat) (p : ℚ)
    (ev : List String) : Incident :=
  { inc with last_seen_at := windowStart,
             severity := max inc.severity (scaleSeverity p),
             evidence := appendEvidence inc.evidence ev }

/-- One qualifying window subsequently merged into an incident. -/
structure MergeStep where
  start : Nat
  proba : ℚ
  ev : List String

/-- Merge a whole sequence of qualifying windows, oldest first. -/
def mergeAll (inc : Incident) (steps : List MergeStep) : Incident :=
  steps.foldl (fun acc s => mergeWindow acc s.start s.proba s.ev) inc

theorem mergeAll_first_seen (steps : List MergeStep) (inc : Incident) :
    (mergeAll inc steps).first_seen_at = inc.first_seen_at := by
  induction steps generalizing inc with
  | nil => rfl
  | cons s ss ih => simpa [mergeAll, List.foldl_cons] using ih (mergeWindow inc s.start s.proba s.ev)

theorem mergeAll_status (steps : List MergeStep) (inc : Incident) :
    (mergeAll inc steps).status = inc.status := by
  induction steps generalizing inc with
  | nil => rfl
  | cons s ss ih => simpa [mergeAll, List.foldl_cons] using ih (mergeWindow inc s.start s.proba s.ev)

theorem mergeAll_severity (steps : List MergeStep) (inc : Incident) :
    (mergeAll inc steps).severity =
      (steps.map (fun s => scaleSeverity s.proba)).foldl max inc.severity := by
  induction steps generalizing inc with
  | nil => rfl
  | cons s ss ih =>
    simpa [mergeAll, List.foldl_cons, mergeWindow] using
      ih (mergeWindow inc s.start s.proba s.ev)

/-- Claim C4: merging a qualifying window into an existing open incident
leaves `status` and `first_seen_at` unchanged while `last_seen_at` becomes
the merged window's start; across any sequence of merges after creation,
`first_seen_at` stays the creation window's start (set exactly once) and
`status` stays `open`. -/
theorem C4_merge_frame :
    (∀ (inc : Incident) (t : Nat) (p : ℚ) (ev : List String),
      (mergeWindow inc t p ev).status = inc.status ∧
      (mergeWindow inc t p ev).first_seen_at = inc.first_seen_at ∧
      (mergeWindow inc t p ev).last_seen_at = t) ∧
    (∀ (fp : Fingerprint) (t0 : Nat) (p0 : ℚ) (ti de : String)
        (steps : List MergeStep),
      (mergeAll (createIncident fp t0 p0 ti de) steps).first_seen_at = t0 ∧
      (mergeAll (createIncident fp t0 p0 ti de) steps).status = "open") := by
  constructor
  · intro inc t p ev
    exact ⟨rfl, rfl, rfl⟩
  · intro fp t0 p0 ti de steps
    refine ⟨?_, ?_⟩
    · rw [mergeAll_first_seen]
      rfl
    · rw [mergeAll_status]
      rfl

/-- Claim C5: incident severity is monotone non-decreasing across merges
and equals the running maximum of the merged windows' probabilities scaled
to 0–100; in particular the spec scenario — a `bruteforce` incident
created from a probability 0.92 window (severity 92) and later merged with
a probability 0.40 window — keeps severity 92. -/
theorem C5_severity_running_max :
    (∀ (inc : Incident) (t : Nat) (p : ℚ) (ev : List String),
      inc.severity ≤ (mergeWindow inc t p ev).severity) ∧
    (∀ (fp : Fingerprint) (t0 : Nat) (p0 : ℚ) (ti de : String)
        (steps : List MergeStep),
      (mergeAll (createIncident fp t0 p0 ti de) steps).severity =
        (steps.map (fun s => scaleSeverity s.proba)).foldl max
          (scaleSeverity p0)) ∧
    (createIncident ⟨"bruteforce", "198.51.100.9", "10.0.0.7"⟩ 0 (92 / 100)
        "t" "d").severity = 92 ∧
    (mergeWindow
        (createIncident ⟨"bruteforce", "198.51.100.9", "10.0.0.7"⟩ 0
          (92 / 100) "t" "d")
        60 (40 / 100) []).severity = 92 ∧
    (mergeWindow
        (createIncident ⟨"bruteforce", "198.51.100.9", "10.0.0.7"⟩ 0
          (92 / 100) "t" "d")
        60 (40 / 100) []).last_seen_at = 60 := by
  refine ⟨?_, ?_, ?_, ?_, rfl⟩
  · intro inc t p ev
    simp [mergeWindow]
  · intro fp t0 p0 ti de steps
    rw [mergeAll_severity]
    rfl
  · norm_num [createIncident, scaleSeverity]
  · norm_num [mergeWindow, createIncident, scaleSeverity]

/-- Claim C3: a window labelled `healthy` is excluded from incident
creation when the include-healthy override is off (the default): it fails
the inclusion filter, no emitted record carries the `healthy` label, and
the output over any window list containing it equals the output with the
healthy window removed — no record is created or emitted for that window;
with the explicit override on, the healthy window is included in the
output, contributing exactly its record at its position. -/
theorem C3_healthy_filter (f : ClassificationResult → String × String)
    (w : ClassificationResult) (ws ws1 ws2 : List ClassificationResult)
    (hw : w.label = "healthy") :
    includeWindow false w = false ∧
    (∀ r ∈ summarizeRun false f ws, r.predicted_label ≠ "healthy") ∧
    (w ∈ ws → mkSummaryRecord f w ∈ summarizeRun true f ws) ∧
    summarizeRun false f (ws1 ++ w :: ws2) = summarizeRun false f (ws1 ++ ws2) ∧
    summarizeRun true f (ws1 ++ w :: ws2) =
      summarizeRun true f ws1 ++ mkSummaryRecord f w :: summarizeRun true f ws2 := by
  refine ⟨by simp [includeWindow, hw], ?_, ?_, ?_, ?_⟩
  · intro r hr
    simp only [summarizeRun, List.mem_map, List.mem_filter, includeWindow,
      Bool.false_or, decide_eq_true_eq] at hr
    obtain ⟨wmem, ⟨hw1, hw2⟩, rfl⟩ := hr
    simpa [mkSummaryRecord] using hw2
  · intro hmem
    simp only [summarizeRun, List.mem_map]
    exact ⟨w, List.mem_filter.mpr ⟨hmem, by simp [includeWindow]⟩, rfl⟩
  · simp [summarizeRun, List.filter_append, List.filter_cons, includeWindow, hw]
  · simp [summarizeRun, List.filter_append, List.filter_cons, includeWindow]

/-- Witness for claim C3 at a concrete healthy window: excluded by
default (the output equals the run without it) and included verbatim
under the override. -/
theorem C3_healthy_filter_witness :
    includeWindow false ⟨0, 60, "healthy", 1 / 10⟩ = false ∧
    mkSummaryRecord (fun _ => ("t", "d")) ⟨0, 60, "healthy", 1 / 10⟩ ∈
      summarizeRun true (fun _ => ("t", "d"))
        [⟨0, 60, "healthy", 1 / 10⟩] ∧
    summarizeRun false (fun _ => ("t", "d"))
        ([⟨0, 60, "bruteforce", 9 / 10⟩] ++ ⟨0, 60, "healthy", 1 / 10⟩ :: []) =
      summarizeRun false (fun _ => ("t", "d"))
        ([⟨0, 60, "bruteforce", 9 / 10⟩] ++ []) :=
  ⟨(C3_healthy_filter (fun _ => ("t", "d")) ⟨0, 60, "healthy", 1 / 10⟩
      [⟨0, 60, "healthy", 1 / 10⟩] [] [] rfl).1,
   (C3_healthy_filter (fun _ => ("t", "d")) ⟨0, 60, "healthy", 1 / 10⟩
      [⟨0, 60, "healthy", 1 / 10⟩] [] [] rfl).2.2.1 (by simp),
   (C3_healthy_filter (fun _ => ("t", "d")) ⟨0, 60, "healthy", 1 / 10⟩
      [⟨0, 60, "healthy", 1 / 10⟩] [⟨0, 60, "bruteforce", 9 / 10⟩] [] rfl).2.2.2.1⟩

/-! ## Firewall syslog year injection (claim C6)

Modelled from the spec: the UFW parser's timestamp handling is not part
of the repository snapshot (the etl README only notes "current year is
injected and adjusted for year rollover").  Spec §4.2: the syslog
timestamp lacks a year; the current year is injected, and if the
resulting timestamp is more than a small tolerance in the future relative
to now, the year is decremented.  Time is modelled in seconds with
365-day years; a timestamp inside a year is its offset in seconds from
Jan 1 00:00:00. -/

def monthLengths : List Nat := [31, 28, 31, 30, 31, 30, 31, 31, 30, 31, 30, 31]

/-- Days elapsed before the first day of month `m` (1-based). -/
def daysBeforeMonth (m : Nat) : Nat :=
  (monthLengths.take (m - 1)).foldl (fun a b => a + b) 0

/-- Second offset of `month day hour:minute:second` from Jan 1 00:00:00. -/
def secondsIntoYear (month day hour minute second : Nat) : Nat :=
  (daysBeforeMonth month + (day - 1)) * 86400 + hour * 3600 + minute * 60 +
    second

def yearSeconds : Nat := 365 * 86400

/-- Absolute model time of a (year, second-offset-into-year) instant. -/
def absSeconds (year sIntoYear : Nat) : Nat := year * yearSeconds + sIntoYear

/-- Modelled from the spec: inject the current year into a year-less
syslog timestamp; if the result is more than `tol` seconds in the future
relative to now, decrement the year. -/
def resolveFirewallYear (nowYear nowSec tol stamp : Nat) : Nat :=
  if absSeconds nowYear nowSec + tol < absSeconds nowYear stamp then
    nowYear - 1
  else nowYear

/-- Claim C6: the firewall parser injects the current year and keeps it
when the resulting timestamp is within the tolerance of now, decrements
it when the result is more than the tolerance in the future; in
particular a line stamped Dec 31 23:59:59 processed early on Jan 1 of the
following year resolves to the previous calendar year. -/
theorem C6_firewall_year_rollover :
    (∀ nowYear nowSec tol stamp : Nat, nowSec + tol < stamp →
      resolveFirewallYear nowYear nowSec tol stamp = nowYear - 1) ∧
    (∀ nowYear nowSec tol stamp : Nat, stamp ≤ nowSec + tol →
      resolveFirewallYear nowYear nowSec tol stamp = nowYear) ∧
    (∀ y nowSec tol : Nat, nowSec + tol < secondsIntoYear 12 31 23 59 59 →
      resolveFirewallYear (y + 1) nowSec tol
        (secondsIntoYear 12 31 23 59 59) = y) := by
  refine ⟨?_, ?_, ?_⟩
  · intro nowYear nowSec tol stamp h
    simp only [resolveFirewallYear, absSeconds, yearSeconds]
    split
    · rfl
    · omega
  · intro nowYear nowSec tol stamp h
    simp only [resolveFirewallYear, absSeconds, yearSeconds]
    split
    · omega
    · rfl
  · intro y nowSec tol h
    simp only [resolveFirewallYear, absSeconds, yearSeconds]
    split
    · omega
    · omega

/-- Witness for claim C6: the Dec 31 23:59:59 → Jan 1 rollover scenario at
concrete instants (now = Jan 1 00:00:30 of 2025, tolerance 300 s). -/
theorem C6_firewall_year_rollover_witness :
    30 + 300 < secondsIntoYear 12 31 23 59 59 ∧
    resolveFirewallYear 2025 30 300 (secondsIntoYear 12 31 23 59 59) =
      2024 :=
  ⟨by decide, C6_firewall_year_rollover.2.2 2024 30 300 (by decide)⟩

/-! ## Incident Submitter backend requests (claim C7)

The collection endpoint and the POST create request are embedded from the
frontend's `incidents.api.ts` (`createIncident` posts to
`/api/incidents/`); the create-vs-update routing of the pipeline's
Incident Submitter is modelled from the spec, §4.7 and §6: create is
`POST` on the incidents collection, update is `PATCH` on the incident
item, and which one is issued is decided by whether the incident already
carries a backend identity. -/

inductive HttpMethod where
  | get : HttpMethod
  | post : HttpMethod
  | patch : HttpMethod
  | delete : HttpMethod
deriving DecidableEq, Repr

structure BackendRequest where
  method : HttpMethod
  url : String
deriving DecidableEq, Repr

/-- The incidents collection URL, from `incidents.api.ts`. -/
def incidentsCollectionUrl (base : String) : String := base ++ "/api/incidents/"

/-- The create request issued by `createIncident` in `incidents.api.ts`:
a POST to the incidents collection. -/
def createIncidentRequest (base : String) : BackendRequest :=
  { method := .post, url := incidentsCollectionUrl base }

/-- The per-incident item URL (`/api/incidents/{id}/` with the identity
spliced in), as in `deleteIncident` in `incidents.api.ts`. -/
def incidentItemUrl (base id : String) : String :=
  incidentsCollectionUrl base ++ id ++ "/"

/-- An incident as seen by the Submitter: the payload plus the backend
identity assigned on first successful create (none before that). -/
structure SubmitIncident where
  backendId : Option String
  title : String
  attack_type : String
  severity : ℚ
  status : String
  source_ip : String
  dest_ip : String
  first_seen_at : Nat
  last_seen_at : Nat
deriving DecidableEq, Repr

/-- Modelled from the spec: the Incident Submitter issues a create when
the incident has no backend identity yet, an update otherwise. -/
def submitRequest (base : String) (inc : SubmitIncident) : BackendRequest :=
  match inc.backendId with
  | none => createIncidentRequest base
  | some i => { method := .patch, url := incidentItemUrl base i }

/-- Claim C7: creation is a POST to the incidents collection endpoint,
update is a PATCH to the incident item endpoint carrying the backend
identity, and which is issued is decided solely by whether the incident
already carries a backend identity. -/
theorem C7_submit_routing (base : String) (inc : SubmitIncident) :
    (inc.backendId = none →
      submitRequest base inc = createIncidentRequest base ∧
      (submitRequest base inc).method = HttpMethod.post ∧
      (submitRequest base inc).url = base ++ "/api/incidents/") ∧
    (∀ i, inc.backendId = some i →
      (submitRequest base inc).method = HttpMethod.patch ∧
      (submitRequest base inc).url = base ++ "/api/incidents/" ++ i ++ "/") ∧
    (∀ inc2 : SubmitIncident, inc.backendId = inc2.backendId →
      submitRequest base inc = submitRequest base inc2) := by
  refine ⟨?_, ?_, ?_⟩
  · intro h
    simp [submitRequest, h, createIncidentRequest, incidentsCollectionUrl]
  · intro i h
    simp [submitRequest, h, incidentItemUrl, incidentsCollectionUrl]
  · intro inc2 h
    simp [submitRequest, h]

/-- Witness for claim C7 at concrete incidents with and without a backend
identity. -/
theorem C7_submit_routing_witness :
    submitRequest "http://b"
        ⟨none, "t", "bruteforce", 92, "open", "s", "d", 0, 0⟩ =
      createIncidentRequest "http://b" ∧
    (submitRequest "http://b"
        ⟨some "42", "t", "bruteforce", 92, "open", "s", "d", 0, 0⟩).method =
      HttpMethod.patch ∧
    (submitRequest "http://b"
        ⟨some "42", "t", "bruteforce", 92, "open", "s", "d", 0, 0⟩).url =
      "http://b" ++ "/api/incidents/" ++ "42" ++ "/" :=
  ⟨((C7_submit_routing "http://b"
      ⟨none, "t", "bruteforce", 92, "open", "s", "d", 0, 0⟩).1 rfl).1,
   ((C7_submit_routing "http://b"
      ⟨some "42", "t", "bruteforce", 92, "open", "s", "d", 0, 0⟩).2.1
      "42" rfl).1,
   ((C7_submit_routing "http://b"
      ⟨some "42", "t", "bruteforce", 92, "open", "s", "d", 0, 0⟩).2.1
      "42" rfl).2⟩

/-! ## Source Reader incremental polling (claim C8)

Modelled from the spec: the orchestrator's source-reader Python module is
not part of the repository snapshot (only the orchestrator README is).
Spec §4.1: the reader opens the file at the last known offset (resetting
to 0 when the file shrank below the offset), splits on newline, retains
the trailing partial line rather than emitting it, and advances the
checkpoint after lines are handed off. -/

/-- Split chars into completed (newline-terminated) lines and the
trailing chars after the last newline; `cur` holds the line in progress
in reverse. -/
def splitCompleteAux (cur : List Char) :
    List Char → List (List Char) × List Char
  | [] => ([], cur.reverse)
  | c :: cs =>
    if c = '\n' then
      (cur.reverse :: (splitCompleteAux [] cs).1, (splitCompleteAux [] cs).2)
    else splitCompleteAux (c :: cur) cs

/-- Completed lines and trailing partial line of a char buffer. -/
def splitComplete (cs : List Char) : List (List Char) × List Char :=
  splitCompleteAux [] cs

structure Checkpoint where
  offset : Nat
deriving DecidableEq, Repr

/-- The effective read offset: reset to 0 when the file is smaller than
the stored offset (rotation/truncation resync), else the checkpoint. -/
def pollOffset (content : List Char) (ck : Checkpoint) : Nat :=
  if content.length < ck.offset then 0 else ck.offset

/-- Modelled from the spec: one `poll` call — read from the effective
offset, emit completed lines only, and advance the checkpoint past
exactly the chars whose lines were handed off (the trailing partial line
stays unconsumed). -/
def pollFile (content : List Char) (ck : Checkpoint) :
    List (List Char) × Checkpoint :=
  ((splitComplete (content.drop (pollOffset content ck))).1,
   ⟨pollOffset content ck +
     ((content.drop (pollOffset content ck)).length -
       (splitComplete (content.drop (pollOffset content ck))).2.length)⟩)

theorem splitCompleteAux_no_newline (cs : List Char) :
    ∀ cur : List Char, Char.ofNat 10 ∉ cur →
      Char.ofNat 10 ∉ (splitCompleteAux cur cs).2 := by
  induction cs with
  | nil =>
    intro cur h
    simpa [splitCompleteAux, List.mem_reverse] using h
  | cons c cs ih =>
    intro cur h
    by_cases hc : c = Char.ofNat 10
    · simp only [splitCompleteAux, if_pos hc]
      exact ih [] (by simp)
    · simp only [splitCompleteAux, if_neg hc]
      refine ih (c :: cur) ?_
      simp only [List.mem_cons, not_or]
      exact ⟨fun hx => hc hx.symm, h⟩

theorem splitCompleteAux_suffix (cs : List Char) :
    ∀ cur : List Char, (splitCompleteAux cur cs).2 <:+ (cur.reverse ++ cs) := by
  induction cs with
  | nil =>
    intro cur
    simp [splitCompleteAux]
  | cons c cs ih =>
    intro cur
    by_cases hc : c = Char.ofNat 10
    · simp only [splitCompleteAux, if_pos hc]
      have h1 : (splitCompleteAux [] cs).2 <:+ cs := by simpa using ih []
      exact h1.trans ⟨cur.reverse ++ [c], by simp⟩
    · simp only [splitCompleteAux, if_neg hc]
      have h1 := ih (c :: cur)
      simpa using h1

theorem splitCompleteAux_of_no_newline (cs : List Char) :
    ∀ cur : List Char, Char.ofNat 10 ∉ cs →
      splitCompleteAux cur cs = ([], cur.reverse ++ cs) := by
  induction cs with
  | nil =>
    intro cur h
    simp [splitCompleteAux]
  | cons c cs ih =>
    intro cur h
    have hc : ¬(c = Char.ofNat 10) := by
      intro hx
      exact h (by simp [hx])
    simp only [splitCompleteAux, if_neg hc]
    rw [ih (c :: cur) (fun hm => h (List.mem_cons_of_mem _ hm))]
    simp

/-- Claim C8: ingestion is idempotent after a successful checkpoint: a
second `poll` on the unchanged file yields zero additional lines and
leaves the checkpoint where the first poll put it. -/
theorem C8_idempotent_ingestion (content : List Char) (ck : Checkpoint) :
    (pollFile content (pollFile content ck).2).1 = [] ∧
    (pollFile content (pollFile content ck).2).2 = (pollFile content ck).2 := by
  have hnn : Char.ofNat 10 ∉ (splitComplete (content.drop (pollOffset content ck))).2 :=
    splitCompleteAux_no_newline _ [] (by simp)
  have hsuf : (splitComplete (content.drop (pollOffset content ck))).2 <:+
      content.drop (pollOffset content ck) := by
    simpa [splitComplete] using
      splitCompleteAux_suffix (content.drop (pollOffset content ck)) []
  have hoffle : pollOffset content ck ≤ content.length := by
    rw [pollOffset]
    split <;> omega
  have hrlen : (splitComplete (content.drop (pollOffset content ck))).2.length ≤
      (content.drop (pollOffset content ck)).length := hsuf.length_le
  have hflen : (content.drop (pollOffset content ck)).length =
      content.length - pollOffset content ck := by
    simp
  have hck1le : pollOffset content ck +
      ((content.drop (pollOffset content ck)).length -
        (splitComplete (content.drop (pollOffset content ck))).2.length) ≤
      content.length := by omega
  have hoff2 : pollOffset content (pollFile content ck).2 =
      (pollFile content ck).2.offset := by
    rw [pollOffset]
    rw [if_neg]
    simp only [pollFile] at hck1le ⊢
    omega
  have hdrop : content.drop ((pollFile content ck).2.offset) =
      (splitComplete (content.drop (pollOffset content ck))).2 := by
    show content.drop (pollOffset content ck +
      ((content.drop (pollOffset content ck)).length -
        (splitComplete (content.drop (pollOffset content ck))).2.length)) = _
    rw [← List.drop_drop]
    exact (List.suffix_iff_eq_drop.mp hsuf).symm
  have hsplit : splitComplete (splitComplete (content.drop (pollOffset content ck))).2 =
      ([], (splitComplete (content.drop (pollOffset content ck))).2) := by
    rw [splitComplete, splitCompleteAux_of_no_newline _ [] hnn]
    simp
  constructor
  · show (splitComplete (content.drop (pollOffset content (pollFile content ck).2))).1 = []
    rw [hoff2, hdrop, hsplit]
  · show (⟨pollOffset content (pollFile content ck).2 +
      ((content.drop (pollOffset content (pollFile content ck).2)).length -
        (splitComplete (content.drop (pollOffset content (pollFile content ck).2))).2.length)⟩ : Checkpoint) =
      (pollFile content ck).2
    rw [hoff2, hdrop, hsplit]
    simp

/-! ## Frontend incidents API client (claims C9, C10)

Embedded from `incidents.api.ts`: `parseJson`, `buildQuery` and
`listIncidents`.  A JSON value is modelled structurally; an HTTP response
carries the `ok` flag, the numeric status, the body text and the body's
parsed JSON value. -/

inductive Json where
  | null : Json
  | bool : Bool → Json
  | num : Int → Json
  | str : String → Json
  | arr : List Json → Json
  | obj : List (String × Json) → Json

structure HttpResponse where
  ok : Bool
  status : Nat
  bodyText : String
  bodyJson : Json

/-- `parseJson` from `incidents.api.ts`: on a non-ok response throw an
Error whose message is the body text, or `Request failed with <status>`
when the body text is empty; otherwise return the parsed JSON body. -/
def parseJson (r : HttpResponse) : Except String Json :=
  if r.ok then .ok r.bodyJson
  else
    .error (if r.bodyText = "" then "Request failed with " ++ toString r.status
            else r.bodyText)

/-- `listIncidents` from `incidents.api.ts` (response handling): the JSON
body if it is an array, the body's `results` field if that is an array,
the empty array otherwise. -/
def listIncidents (r : HttpResponse) : Except String (List Json) :=
  match parseJson r with
  | .error e => .error e
  | .ok d =>
    match d with
    | .arr xs => .ok xs
    | .obj fs =>
      match fs.lookup "results" with
      | some (.arr ys) => .ok ys
      | _ => .ok []
    | _ => .ok []

/-- Claim C9: `listIncidents` is total over response shapes and throws
exactly on HTTP failure, with the message being the body text or the
`Request failed with <status>` fallback when the body is empty; on an ok
response it returns the body if it is an array, the body's `results`
field if that is an array, and the empty array in every other case — it
never returns a non-array. -/
theorem C9_listIncidents_total (r : HttpResponse) :
    ((∃ e, listIncidents r = .error e) ↔ r.ok = false) ∧
    (r.ok = false →
      listIncidents r =
        .error (if r.bodyText = "" then
                  "Request failed with " ++ toString r.status
                else r.bodyText)) ∧
    (r.ok = true →
      (∃ xs, listIncidents r = .ok xs) ∧
      (∀ xs, r.bodyJson = .arr xs → listIncidents r = .ok xs) ∧
      (∀ fs ys, r.bodyJson = .obj fs → fs.lookup "results" = some (.arr ys) →
        listIncidents r = .ok ys) ∧
      ((∀ xs, r.bodyJson ≠ .arr xs) →
        (∀ fs ys, ¬(r.bodyJson = .obj fs ∧
          fs.lookup "results" = some (.arr ys))) →
        listIncidents r = .ok [])) := by
  rcases r with ⟨ok, status, bodyText, bodyJson⟩
  cases ok with
  | false =>
    refine ⟨⟨fun _ => rfl, fun _ => ⟨_, rfl⟩⟩, fun _ => rfl, fun h => by simp at h⟩
  | true =>
    refine ⟨⟨fun ⟨e, he⟩ => ?_, fun h => by simp at h⟩, fun h => by simp at h,
      fun _ => ⟨?_, ?_, ?_, ?_⟩⟩
    · cases bodyJson with
      | arr xs => simp [listIncidents, parseJson] at he
      | obj fs =>
        simp only [listIncidents, parseJson, if_pos] at he
        rcases hl : fs.lookup "results" with _ | v
        · simp [hl] at he
        · cases v <;> simp [hl] at he
      | null => simp [listIncidents, parseJson] at he
      | bool b => simp [listIncidents, parseJson] at he
      | num n => simp [listIncidents, parseJson] at he
      | str s => simp [listIncidents, parseJson] at he
    · cases bodyJson with
      | arr xs => exact ⟨xs, rfl⟩
      | obj fs =>
        rcases hl : fs.lookup "results" with _ | v
        · exact ⟨[], by simp [listIncidents, parseJson, hl]⟩
        · cases v with
          | arr ys => exact ⟨ys, by simp [listIncidents, parseJson, hl]⟩
          | null => exact ⟨[], by simp [listIncidents, parseJson, hl]⟩
          | bool b => exact ⟨[], by simp [listIncidents, parseJson, hl]⟩
          | num n => exact ⟨[], by simp [listIncidents, parseJson, hl]⟩
          | str s => exact ⟨[], by simp [listIncidents, parseJson, hl]⟩
          | obj gs => exact ⟨[], by simp [listIncidents, parseJson, hl]⟩
      | null => exact ⟨[], rfl⟩
      | bool b => exact ⟨[], rfl⟩
      | num n => exact ⟨[], rfl⟩
      | str s => exact ⟨[], rfl⟩
    · intro xs hx
      subst hx
      rfl
    · intro fs ys hf hl
      subst hf
      simp [listIncidents, parseJson, hl]
    · intro hnarr hnres
      cases bodyJson with
      | arr xs => exact absurd rfl (hnarr xs)
      | obj fs =>
        rcases hl : fs.lookup "results" with _ | v
        · simp [listIncidents, parseJson, hl]
        · cases v with
          | arr ys => exact absurd ⟨rfl, hl⟩ (hnres fs ys)
          | null => simp [listIncidents, parseJson, hl]
          | bool b => simp [listIncidents, parseJson, hl]
          | num n => simp [listIncidents, parseJson, hl]
          | str s => simp [listIncidents, parseJson, hl]
          | obj gs => simp [listIncidents, parseJson, hl]
      | null => rfl
      | bool b => rfl
      | num n => rfl
      | str s => rfl

/-- Witness for claim C9: a 500 response with an empty body yields the
fallback error message; an ok response whose body is a `results` object
yields that array. -/
theorem C9_listIncidents_total_witness :
    listIncidents ⟨false, 500, "", Json.null⟩ =
      .error "Request failed with 500" ∧
    listIncidents ⟨true, 200, "",
        Json.obj [("results", Json.arr [Json.num 3])]⟩ =
      .ok [Json.num 3] := by
  constructor
  · have h := (C9_listIncidents_total ⟨false, 500, "", Json.null⟩).2.1 rfl
    simpa using h
  · exact (C9_listIncidents_total ⟨true, 200, "",
      Json.obj [("results", Json.arr [Json.num 3])]⟩).2.2 rfl |>.2.2.1
      [("results", Json.arr [Json.num 3])] [Json.num 3] rfl (by simp)

/-! ## buildQuery (claim C10) -/

/-- The filter parameters of the incidents list request, from
`incidents.types.ts` (`IncidentListParams`); `none` stands for a JS
`undefined`/`null` field. -/
structure IncidentListParams where
  status : Option String
  attack_type : Option String
  min_severity : Option Int
  q : Option String
  ordering : Option String
deriving DecidableEq, Repr

/-- One `if (params.x) search.set("x", params.x)` step of `buildQuery`
for a string-valued parameter: included iff present and truthy
(nonempty). -/
def strPairs (key : String) : Option String → List (String × String)
  | none => []
  | some s => if s = "" then [] else [(key, s)]

/-- The `min_severity` step of `buildQuery`: included iff the value is
neither `undefined` nor `null` nor exactly `0`. -/
def intPairs (key : String) : Option Int → List (String × String)
  | none => []
  | some v => if v = 0 then [] else [(key, toString v)]

/-- `buildQuery` from `incidents.api.ts`, as the ordered key/value pairs
the `URLSearchParams` accumulates. -/
def buildQueryPairs (p : IncidentListParams) : List (String × String) :=
  strPairs "status" p.status ++ strPairs "attack_type" p.attack_type ++
    intPairs "min_severity" p.min_severity ++ strPairs "q" p.q ++
    strPairs "ordering" p.ordering

/-- The query string `URLSearchParams.toString()` renders from the
accumulated pairs (ampersand-joined `key=value` entries). -/
def buildQuery (p : IncidentListParams) : String :=
  String.intercalate "&" ((buildQueryPairs p).map (fun kv => kv.1 ++ "=" ++ kv.2))

theorem strPairs_key {k v key : String} {o : Option String}
    (h : (k, v) ∈ strPairs key o) : k = key := by
  cases o with
  | none => simp [strPairs] at h
  | some s =>
    by_cases hs : s = ""
    · simp [strPairs, hs] at h
    · simp only [strPairs, if_neg hs, List.mem_singleton, Prod.mk.injEq] at h
      exact h.1

theorem intPairs_key {k v key : String} {o : Option Int}
    (h : (k, v) ∈ intPairs key o) : k = key := by
  cases o with
  | none => simp [intPairs] at h
  | some n =>
    by_cases hn : n = 0
    · simp [intPairs, hn] at h
    · simp only [intPairs, if_neg hn, List.mem_singleton, Prod.mk.injEq] at h
      exact h.1

theorem exists_mem_strPairs (key : String) (o : Option String) :
    (∃ v, (key, v) ∈ strPairs key o) ↔ ∃ s, o = some s ∧ s ≠ "" := by
  cases o with
  | none => simp [strPairs]
  | some s => by_cases hs : s = "" <;> simp [strPairs, hs]

theorem exists_mem_intPairs (key : String) (o : Option Int) :
    (∃ v, (key, v) ∈ intPairs key o) ↔ ∃ n, o = some n ∧ n ≠ 0 := by
  cases o with
  | none => simp [intPairs]
  | some n => by_cases hn : n = 0 <;> simp [intPairs, hn]

/-- Claim C10: `buildQuery` omits `min_severity` when the parameter is
absent (`undefined`/`null`) or exactly 0 — a minimum-severity filter of 0
produces the same query string as no severity filter — and each of
`status`, `attack_type`, `q`, `ordering` is included iff it is a truthy
(present, nonempty) value, with `min_severity` included iff present and
nonzero. -/
theorem C10_buildQuery (p : IncidentListParams) :
    buildQuery { p with min_severity := some 0 } =
      buildQuery { p with min_severity := none } ∧
    ((∃ v, ("min_severity", v) ∈ buildQueryPairs p) ↔
      ∃ n, p.min_severity = some n ∧ n ≠ 0) ∧
    ((∃ v, ("status", v) ∈ buildQueryPairs p) ↔
      ∃ s, p.status = some s ∧ s ≠ "") ∧
    ((∃ v, ("attack_type", v) ∈ buildQueryPairs p) ↔
      ∃ s, p.attack_type = some s ∧ s ≠ "") ∧
    ((∃ v, ("q", v) ∈ buildQueryPairs p) ↔
      ∃ s, p.q = some s ∧ s ≠ "") ∧
    ((∃ v, ("ordering", v) ∈ buildQueryPairs p) ↔
      ∃ s, p.ordering = some s ∧ s ≠ "") := by
  refine ⟨?_, ?_, ?_, ?_, ?_, ?_⟩
  · simp [buildQuery, buildQueryPairs, intPairs]
  · rw [← exists_mem_intPairs "min_severity" p.min_severity]
    constructor
    · rintro ⟨v, hv⟩
      simp only [buildQueryPairs, List.mem_append] at hv
      rcases hv with (((h | h) | h) | h) | h
      · exact absurd (strPairs_key h) (by decide)
      · exact absurd (strPairs_key h) (by decide)
      · exact ⟨v, h⟩
      · exact absurd (strPairs_key h) (by decide)
      · exact absurd (strPairs_key h) (by decide)
    · rintro ⟨v, hv⟩
      exact ⟨v, by simp [buildQueryPairs, List.mem_append, hv]⟩
  · rw [← exists_mem_strPairs "status" p.status]
    constructor
    · rintro ⟨v, hv⟩
      simp only [buildQueryPairs, List.mem_append] at hv
      rcases hv with (((h | h) | h) | h) | h
      · exact ⟨v, h⟩
      · exact absurd (strPairs_key h) (by decide)
      · exact absurd (intPairs_key h) (by decide)
      · exact absurd (strPairs_key h) (by decide)
      · exact absurd (strPairs_key h) (by decide)
    · rintro ⟨v, hv⟩
      exact ⟨v, by simp [buildQueryPairs, List.mem_append, hv]⟩
  · rw [← exists_mem_strPairs "attack_type" p.attack_type]
    constructor
    · rintro ⟨v, hv⟩
      simp only [buildQueryPairs, List.mem_append] at hv
      rcases hv with (((h | h) | h) | h) | h
      · exact absurd (strPairs_key h) (by decide)
      · exact ⟨v, h⟩
      · exact absurd (intPairs_key h) (by decide)
      · exact absurd (strPairs_key h) (by decide)
      · exact absurd (strPairs_key h) (by decide)
    · rintro ⟨v, hv⟩
      exact ⟨v, by simp [buildQueryPairs, List.mem_append, hv]⟩
  · rw [← exists_mem_strPairs "q" p.q]
    constructor
    · rintro ⟨v, hv⟩
      simp only [buildQueryPairs, List.mem_append] at hv
      rcases hv with (((h | h) | h) | h) | h
      · exact absurd (strPairs_key h) (by decide)
      · exact absurd (strPairs_key h) (by decide)
      · exact absurd (intPairs_key h) (by decide)
      · exact ⟨v, h⟩
      · exact absurd (strPairs_key h) (by decide)
    · rintro ⟨v, hv⟩
      exact ⟨v, by simp [buildQueryPairs, List.mem_append, hv]⟩
  · rw [← exists_mem_strPairs "ordering" p.ordering]
    constructor
    · rintro ⟨v, hv⟩
      simp only [buildQueryPairs, List.mem_append] at hv
      rcases hv with (((h | h) | h) | h) | h
      · exact absurd (strPairs_key h) (by decide)
      · exact absurd (strPairs_key h) (by decide)
      · exact absurd (intPairs_key h) (by decide)
      · exact absurd (strPairs_key h) (by decide)
      · exact ⟨v, h⟩
    · rintro ⟨v, hv⟩
      exact ⟨v, by simp [buildQueryPairs, List.mem_append, hv]⟩

/-- Witness for claim C10: with the default ordering and a minimum
severity of 0 the query string equals the one built with no severity
filter at all. -/
theorem C10_buildQuery_witness :
    buildQuery ⟨some "open", none, some 0, none, some "-last_seen_at"⟩ =
      buildQuery ⟨some "open", none, none, none, some "-last_seen_at"⟩ :=
  (C10_buildQuery ⟨some "open", none, some 0, none, some "-last_seen_at"⟩).1

end AgentSpec
